import Mathlib

/-!
# Verification of the WhatsApp auto-reply bot core

Shallow embedding of the session/message orchestration core of the
`whatsapp-auto` repository (files `gemini.js`, `whatsapp-bot.js`,
`sessionManager`, `whatsapp` manager).  JavaScript strings are modelled as
Lean `String`/`List Char`, machine timestamps as `Nat`, and the 32-bit
message hash as `Int` with explicit wrapping.  Randomness
(`Math.random()` draws) and the external collaborators (the AI model, the
transport) are passed in as explicit parameters, following the spec's own
design note to "parameterize the random source".
-/

set_option autoImplicit false

namespace WA

/-- `c.toLowerCase()` for one character, ASCII range (JS `toLowerCase` on
the bot's inputs only affects ASCII letters). -/
def jsCharLower (c : Char) : Char :=
  if 65 ≤ c.toNat ∧ c.toNat ≤ 90 then Char.ofNat (c.toNat + 32) else c

/-- `s.toLowerCase()` on a character list. -/
def jsLower (cs : List Char) : List Char := cs.map jsCharLower

/-- JS `String.prototype.includes(sub)`: substring containment. -/
def jsIncludes : List Char → List Char → Bool
  | [], sub => sub.isEmpty
  | c :: rest, sub => sub.isPrefixOf (c :: rest) || jsIncludes rest sub

/-- JS word character (`\w` = `[A-Za-z0-9_]`), used for `\b` boundaries. -/
def isWordChar (c : Char) : Bool :=
  (97 ≤ c.toNat ∧ c.toNat ≤ 122) ∨ (65 ≤ c.toNat ∧ c.toNat ≤ 90) ∨
    (48 ≤ c.toNat ∧ c.toNat ≤ 57) ∨ c = '_'

/-- Does the word `w` (already lower case) occur in `cs` at the current
position, with a word boundary on each side?  `prev` is the character
just before the current position (`none` at the start of the string). -/
def wordAt (prev : Option Char) (cs w : List Char) : Bool :=
  (match prev with | none => true | some c => !isWordChar c) &&
  jsLower (cs.take w.length) == w &&
  (match cs.drop w.length with | [] => true | c :: _ => !isWordChar c)

/-- Scan `cs` for a `\b w \b` match (case-insensitive test of word `w`). -/
def wordScan (prev : Option Char) (cs w : List Char) : Bool :=
  match cs with
  | [] => wordAt prev [] w
  | c :: rest => wordAt prev (c :: rest) w || wordScan (some c) rest w

/-- JS `new RegExp("\\b" ++ w ++ "\\b", "i").test(s)` for a plain word `w`. -/
def testWord (s : List Char) (w : List Char) : Bool := wordScan none s w

/-- JS whitespace class `\s` (the bot only meets ASCII whitespace). -/
def isSpace (c : Char) : Bool := c.isWhitespace

/-- JS `String.prototype.trim()`. -/
def jsTrim (cs : List Char) : List Char :=
  ((cs.dropWhile isSpace).reverse.dropWhile isSpace).reverse

/-- The decimal digit character for `d < 10`. -/
def digitChar (d : Nat) : Char := Char.ofNat (48 + d)

/-- Fueled decimal rendering; `fuel` only needs to exceed the number of
digits, and is set to `n + 1` by `natDecDigits`. -/
def natDecDigitsGo : Nat → Nat → List Char
  | 0, _ => []
  | fuel + 1, n =>
    if n < 10 then [digitChar n]
    else natDecDigitsGo fuel (n / 10) ++ [digitChar (n % 10)]

/-- Decimal rendering of a natural number (JS number-to-string for the
integers this program renders: timestamps and hash values). -/
def natDecDigits (n : Nat) : List Char := natDecDigitsGo (n + 1) n

/-- JS decimal rendering of an integer (used for the cache key built from
the 32-bit message hash, which may be negative). -/
def intToDecString (n : Int) : String :=
  if n < 0 then "-" ++ ⟨natDecDigits n.natAbs⟩ else ⟨natDecDigits n.toNat⟩

/-- One step of a global replace of `\b w \b` (flags `gi`): emit `rep`
and resume after the matched word, like `String.prototype.replace` with a
global regex.  `fuel` bounds the scan by the length of the text. -/
def replaceWordGo : Option Char → List Char → List Char → List Char → Nat → List Char
  | _, cs, _, _, 0 => cs
  | prev, cs, w, rep, Nat.succ fuel =>
    match cs with
    | [] => []
    | c :: rest =>
      if wordAt prev (c :: rest) w then
        rep ++ replaceWordGo ((c :: rest).take w.length).getLast?
          ((c :: rest).drop w.length) w rep fuel
      else
        c :: replaceWordGo (some c) rest w rep fuel

/-- JS `s.replace(new RegExp("\\b" ++ w ++ "\\b", "gi"), rep)`. -/
def replaceWordAll (cs w rep : List Char) : List Char :=
  replaceWordGo none cs w rep cs.length

/-- Helper for the global replaces `/[!]{2,}/g` etc. of `cleanResponse`:
collapse every run of two or more `c` into `rep`.  `run` counts the `c`
characters currently being read. -/
def collapseGo (c : Char) (rep : List Char) : List Char → Nat → List Char
  | [], run => if run ≥ 2 then rep else List.replicate run c
  | x :: rest, run =>
    if x = c then collapseGo c rep rest (run + 1)
    else (if run ≥ 2 then rep else List.replicate run c) ++ x :: collapseGo c rep rest 0

/-- JS `s.replace(new RegExp("[c]\x7b2,\x7d", "g"), rep)`. -/
def collapseRuns (cs : List Char) (c : Char) (rep : List Char) : List Char :=
  collapseGo c rep cs 0

/-- The capped push both history stores use: append the entry and drop
the oldest (`history.shift()`) when the cap is exceeded. -/
def pushCap {α : Type} (maxLen : Nat) (history : List α) (e : α) : List α :=
  let history := history ++ [e]
  if history.length > maxLen then history.tail else history

/-- JS `Map.prototype.get`, on an insertion-ordered association list
with unique keys. -/
def alookup {α : Type} : List (String × α) → String → Option α
  | [], _ => none
  | e :: rest, k => if e.1 == k then some e.2 else alookup rest k

/-- `Map.prototype.get` with a default for a missing key. -/
def alookupD {α : Type} (m : List (String × α)) (k : String) (d : α) : α :=
  (alookup m k).getD d

/-- JS `Map.prototype.has`. -/
def ahas {α : Type} : List (String × α) → String → Bool
  | [], _ => false
  | e :: rest, k => e.1 == k || ahas rest k

/-- JS `Map.prototype.set`: replace in place, or append when the key is
new (JS maps keep insertion order). -/
def aset {α : Type} : List (String × α) → String → α → List (String × α)
  | [], k, v => [(k, v)]
  | e :: rest, k, v => if e.1 == k then (k, v) :: rest else e :: aset rest k v

end WA

namespace GeminiAI

open WA

/-- Wrap an integer to a 32-bit signed value, the effect of JS `h & h`
(`ToInt32`) on a double that holds an integer. -/
def toInt32 (n : Int) : Int := ((n + 2147483648) % 4294967296) - 2147483648

/-- `gemini.js` `hashMessage` loop body:
`hash = ((hash << 5) - hash) + char; hash = hash & hash;`. -/
def hashStep (hash : Int) (c : Char) : Int :=
  toInt32 (toInt32 (hash * 32 - hash) + c.toNat)

/-- `gemini.js` `GeminiAI.hashMessage`: the rolling 31x+c hash of the
message, kept in 32-bit signed range.  (The JS function returns
`hash.toString()`; we keep the integer, which is an injective image of
that string.) -/
def hashMessage (message : String) : Int :=
  message.toList.foldl hashStep 0

/-- The detected conversational register (`detectLanguage` result). -/
inductive Lang where
  | hinglish
  | english
  | hindi
  deriving DecidableEq, Repr

/-- Hindi vocabulary list from `GeminiAI.detectLanguage`. -/
def hindiWords : List String :=
  ["hai", "hain", "kya", "kaise", "kahan", "kab", "kaun", "main", "mein",
   "tum", "aap", "yeh", "woh", "aur", "ki", "ke", "ka", "se", "mera",
   "tera", "uska", "bhai", "yaar", "dost"]

/-- English vocabulary list from `GeminiAI.detectLanguage`. -/
def englishWords : List String :=
  ["the", "and", "you", "are", "what", "how", "where", "when", "who",
   "this", "that", "with", "have", "will", "can", "should", "would"]

/-- Words of the Hinglish-marker regex
`\b(bro|yaar|bhai|dude|man|kya|hai|hain|tum|main|mein)\b` in
`GeminiAI.detectLanguage`. -/
def hinglishMarkers : List String :=
  ["bro", "yaar", "bhai", "dude", "man", "kya", "hai", "hain", "tum",
   "main", "mein"]

/-- `gemini.js` `GeminiAI.detectLanguage`: counts vocabulary substring
hits in the lower-cased message, tests the Hinglish marker regex, and
classifies as `hinglish` / `english` (defaulting to `hinglish`). -/
def detectLanguage (message : String) : Lang :=
  let lowerMessage := jsLower message.toList
  let hindiCount := (hindiWords.filter (fun w => jsIncludes lowerMessage w.toList)).length
  let englishCount := (englishWords.filter (fun w => jsIncludes lowerMessage w.toList)).length
  let hasHinglishPattern := hinglishMarkers.any (fun w => testWord message.toList w.toList)
  if hindiCount > englishCount || hasHinglishPattern then .hinglish
  else if englishCount > 0 then .english
  else .hinglish

end GeminiAI

namespace GeminiAI

open WA

/-- The alternatives of the prefix-stripping regex
`^(Sure|Okay|Alright|Well|So|Here|Response:|Reply:)\s*` of
`cleanResponse`, in the regex's ordered-choice order. -/
def leadWords : List String :=
  ["sure", "okay", "alright", "well", "so", "here", "response:", "reply:"]

/-- The first (case-insensitive, anchored, ordered-choice) replace of
`cleanResponse`: strip a leading filler word and the whitespace after it. -/
def stripLead (cs : List Char) : List Char :=
  match leadWords.find? (fun a => a.toList.isPrefixOf (jsLower cs)) with
  | some a => (cs.drop a.length).dropWhile isSpace
  | none => cs

/-- The phrases of the suffix-cutting regex
`\s*(Let me know|Hope this helps|Feel free to ask|Any other questions).*$`
of `cleanResponse`. -/
def tailPhrases : List String :=
  ["let me know", "hope this helps", "feel free to ask", "any other questions"]

/-- Does the suffix-cutting regex match starting at the head of `cs`?
A match is a whitespace run, a phrase, then a newline-free rest (the
regex's `.*$` cannot cross a line break and must reach the end). -/
def tailMatchAt (cs : List Char) : Bool :=
  (tailPhrases.any fun p =>
    p.toList.isPrefixOf (jsLower cs) && !(cs.drop p.length).contains '\n') ||
  (match cs with
   | [] => false
   | c :: rest => isSpace c && tailMatchAt rest)

/-- The second replace of `cleanResponse`: delete everything from the
leftmost match of the suffix-cutting regex to the end. -/
def cutTail (cs : List Char) : List Char :=
  if tailMatchAt cs then []
  else match cs with
    | [] => []
    | c :: rest => c :: cutTail rest

/-- `gemini.js` `GeminiAI.cleanResponse`: strip AI-style lead-ins and
sign-offs, collapse repeated punctuation, and trim. -/
def cleanResponse (response : String) : String :=
  let cs := stripLead response.toList
  let cs := cutTail cs
  let cs := collapseRuns cs '!' ['!']
  let cs := collapseRuns cs '?' ['?']
  let cs := collapseRuns cs '.' ['.', '.', '.']
  ⟨jsTrim cs⟩

/-- The `variations` table of `addHumanVariations`, per language, in the
source's key-insertion order.  (`variations[language]` is absent for the
`hindi` register, which this class never produces.) -/
def variationsFor : Lang → List (String × List String)
  | .hinglish =>
    [("okay", ["ok", "okk", "theek hai", "achha"]),
     ("good", ["achha", "badhiya", "nice"]),
     ("yes", ["haan", "han", "yeah", "ha"]),
     ("no", ["nahi", "nah", "naa"]),
     ("what", ["kya", "kya baat", "what"]),
     ("how", ["kaise", "kese", "how"]),
     ("friend", ["yaar", "bro", "dost", "bhai"])]
  | .english =>
    [("okay", ["ok", "alright", "cool"]),
     ("good", ["nice", "great", "awesome"]),
     ("yes", ["yeah", "yep", "sure"]),
     ("no", ["nah", "nope"]),
     ("friend", ["buddy", "dude", "bro"])]
  | .hindi => []

/-- `gemini.js` `GeminiAI.addHumanVariations`.  The `Math.random() < 0.2`
draw is the explicit `applyVar`; the per-word alternative draws
(`Math.floor(Math.random() * alternatives.length)`) are consumed from
`picks` (reduced `% length` to model a draw below the pool size). -/
def addHumanVariations (response : String) (language : Lang)
    (applyVar : Bool) (picks : List Nat) : String :=
  if applyVar then
    let step := fun (acc : List Char × List Nat) (wv : String × List String) =>
      if testWord acc.1 wv.1.toList then
        let alt := wv.2.getD (acc.2.headD 0 % wv.2.length) ""
        (replaceWordAll acc.1 wv.1.toList alt.toList, acc.2.tail)
      else acc
    ⟨((variationsFor language).foldl step (response.toList, picks)).1⟩
  else response

/-- `gemini.js` `GeminiAI.addPersonalTouch`: with the `Math.random() < 0.1`
draw `touch` and a pool draw `pick`, occasionally prefix a personal
address when the contact is not the default "Friend". -/
def addPersonalTouch (response contactName : String)
    (touch : Bool) (pick : Nat) : String :=
  if touch && contactName != "Friend" then
    let personalGreetings := ["yaar", "bro", "dude", contactName]
    let greeting := personalGreetings.getD (pick % 4) ""
    greeting ++ ", " ++ response
  else response

/-- The four canned-response categories of `getFallbackResponse`. -/
inductive FallbackType where
  | greeting
  | question
  | thanks
  | dflt
  deriving DecidableEq, Repr

/-- The `fallbackResponses` pools of `GeminiAI.getFallbackResponse`. -/
def fallbackPool : FallbackType → List String
  | .greeting =>
    ["Hey! Kya haal hai? 😊",
     "Arre yaar, kaisa chal raha hai?",
     "Hello bro! Sab badiya?",
     "Hi! What's up? 👋"]
  | .question =>
    ["Hmm, interesting question yaar!",
     "Good question! Let me think...",
     "Arre, ye toh sochna padega 🤔",
     "Wah bhai, deep question hai!"]
  | .thanks =>
    ["Arre yaar, mention not! 😄",
     "Koi baat nahi bro!",
     "Happy to help! 👍",
     "Always welcome dude!"]
  | .dflt =>
    ["Haan bhai, main sun raha hun! 👂",
     "Tell me more yaar!",
     "Interesting! Aur bata...",
     "I'm listening! Go on... 😊"]

/-- The message-type detection of `GeminiAI.getFallbackResponse`: the
`if/else if` chain over `userMessage.toLowerCase()` substring tests, in
source order (greeting, question, thanks, default). -/
def fallbackType (userMessage : String) : FallbackType :=
  let message := jsLower userMessage.toList
  if jsIncludes message "hello".toList || jsIncludes message "hi".toList ||
      jsIncludes message "hey".toList || jsIncludes message "namaste".toList then
    .greeting
  else if jsIncludes message "?".toList || jsIncludes message "how".toList ||
      jsIncludes message "what".toList || jsIncludes message "kya".toList ||
      jsIncludes message "kaise".toList then
    .question
  else if jsIncludes message "thanks".toList || jsIncludes message "thank".toList ||
      jsIncludes message "shukriya".toList || jsIncludes message "dhanyawad".toList then
    .thanks
  else .dflt

/-- `gemini.js` `GeminiAI.getFallbackResponse`: classify the message and
pick a pseudo-random entry of that category's pool (`pick` is the
`Math.floor(Math.random() * responses.length)` draw, reduced `% length`). -/
def getFallbackResponse (userMessage : String) (pick : Nat) : String :=
  let responses := fallbackPool (fallbackType userMessage)
  responses.getD (pick % responses.length) ""

end GeminiAI

namespace GeminiAI

open WA

/-- One chat-history entry as stored by the manager
(`whatsapp.js` `updateChatHistory`): the text, whether the bot sent it,
and a timestamp. -/
structure HistEntry where
  message : String
  isBot : Bool
  timestamp : Nat
  deriving DecidableEq, Repr

/-- The `NodeCache` instance of `GeminiAI`, modelled as an association
list of key, value and insertion time; a later `set` for the same key
shadows the earlier entry. -/
abbrev Cache := List (String × String × Nat)

/-- The cache TTL: `new NodeCache(\x7b stdTTL: 3600 \x7d)` — one hour,
in seconds. -/
def cacheTTL : Nat := 3600

/-- `cache.get(key)` at time `now`: the most recent value stored under
`key`, provided it is within the TTL. -/
def cacheGet (cache : Cache) (key : String) (now : Nat) : Option String :=
  match cache.find? (fun e => e.1 == key) with
  | some (_, v, t) => if now < t + cacheTTL then some v else none
  | none => none

/-- `cache.set(key, value)` at time `now`. -/
def cacheSet (cache : Cache) (key value : String) (now : Nat) : Cache :=
  (key, value, now) :: cache

/-- `gemini.js` `GeminiAI.buildConversationContext`: render the last six
history entries as "You:"/"Friend:" lines. -/
def buildConversationContext (chatHistory : List HistEntry) : String :=
  if chatHistory.isEmpty then ""
  else
    let recentHistory := chatHistory.drop (chatHistory.length - 6)
    recentHistory.foldl
      (fun context entry =>
        context ++ (if entry.isBot then "You" else "Friend") ++ ": " ++
          entry.message ++ "\n")
      ""

/-- `gemini.js` `GeminiAI.createSystemPrompt`: persona text, a
register-specific instruction pair, the fixed rules, and the optional
conversation context.  The `hindi` case is the switch's `default` branch
(never produced by `detectLanguage`). -/
def createSystemPrompt (language : Lang) (contactName : String)
    (conversationContext : String) : String :=
  let basePersonality :=
    "You are chatting with your close friend " ++ contactName ++
      ". You are a fun, friendly, and helpful person who speaks naturally like a real human friend."
  let languageInstructions :=
    match language with
    | .hinglish =>
      "Reply in natural Hinglish (mix of Hindi and English) like young Indians chat. Use words like \"yaar\", \"bhai\", \"kya baat hai\", \"achha\", \"thik hai\", etc."
    | .english =>
      "Reply in casual English like a close friend would. Use natural, conversational English."
    | .hindi =>
      "Reply in the same language/style as the user. Match their communication style."
  let responseStyle :=
    match language with
    | .hinglish =>
      "Keep it casual, short, and friendly. Use emojis occasionally. Sound like a close desi friend."
    | .english =>
      "Keep it friendly, supportive, and natural. Use casual language and be relatable."
    | .hindi =>
      "Be natural and friendly, adapting to their way of speaking."
  let contextPrompt :=
    if conversationContext != "" then
      "\nPrevious conversation context:\n" ++ conversationContext ++ "\n"
    else ""
  basePersonality ++ "\n\n" ++ languageInstructions ++ "\n\n" ++ responseStyle ++
    "\n\nImportant rules:\n- Keep responses under 50 words\n- Be helpful and supportive\n- Show genuine interest in their problems\n- Give practical advice when asked\n- Use humor when appropriate\n- Remember you are talking to a friend, not a customer\n- Do not be overly formal or robotic\n- If you do not know something, admit it honestly\n- Avoid repetitive responses\n\n" ++
    contextPrompt

/-- The cache key of `generateResponse`:
`response_` + `this.hashMessage(userMessage)`. -/
def cacheKeyOf (userMessage : String) : String :=
  "response_" ++ intToDecString (hashMessage userMessage)

/-- The full prompt `generateResponse` sends to the model: the system
prompt for the detected register and context, then the user message. -/
def promptFor (userMessage contactName : String)
    (chatHistory : List HistEntry) : String :=
  createSystemPrompt (detectLanguage userMessage) contactName
      (buildConversationContext chatHistory) ++
    "\n\nUser message: \"" ++ userMessage ++
    "\"\n\nReply naturally as a close friend:"

/-- The random draws one call of `generateResponse` may consume. -/
structure GenRand where
  /-- `Math.random() < 0.1` in `addPersonalTouch`. -/
  touch : Bool
  /-- pool index drawn in `addPersonalTouch`. -/
  touchPick : Nat
  /-- `Math.random() < 0.2` in `addHumanVariations`. -/
  applyVar : Bool
  /-- alternative indices drawn in `addHumanVariations`. -/
  varPicks : List Nat
  /-- pool index drawn in `getFallbackResponse`. -/
  fbPick : Nat

/-- The observable outcome of one `generateResponse` call: the reply, the
cache afterwards, and whether the AI-service collaborator was invoked. -/
structure GenResult where
  reply : String
  cache : Cache
  aiCalled : Bool
  deriving Repr

/-- `gemini.js` `GeminiAI.generateResponse`.  The AI-service collaborator
is the parameter `ai` mapping the composed prompt to `some` generated
text or `none` when `model.generateContent` throws (timeout, quota, ...).
A cached value is used only when it is JS-truthy (a non-empty string),
and is returned through `addPersonalTouch`; a fresh value is cleaned,
varied, cached and returned directly; on an AI failure the canned
fallback is returned (and nothing is cached). -/
def generateResponse (cache : Cache) (now : Nat)
    (userMessage contactName : String) (chatHistory : List HistEntry)
    (ai : String → Option String) (r : GenRand) : GenResult :=
  let cacheKey := cacheKeyOf userMessage
  let cachedResponse := (cacheGet cache cacheKey now).getD ""
  if cachedResponse != "" then
    { reply := addPersonalTouch cachedResponse contactName r.touch r.touchPick
      cache := cache
      aiCalled := false }
  else
    let detectedLanguage := detectLanguage userMessage
    let prompt := promptFor userMessage contactName chatHistory
    match ai prompt with
    | some text =>
      let generatedText := cleanResponse text
      let generatedText := addHumanVariations generatedText detectedLanguage r.applyVar r.varPicks
      { reply := generatedText
        cache := cacheSet cache cacheKey generatedText now
        aiCalled := true }
    | none =>
      { reply := getFallbackResponse userMessage r.fbPick
        cache := cache
        aiCalled := true }

end GeminiAI

namespace SessionManager

open WA

/-- One record of `sessionManager.js`'s `activeSessions` map (the fields
`generateSessionId` creates; the ad-hoc `metadata` merge of
`createSession`/`updateSessionStatus`'s `additionalData`, empty by
default, is not modelled). -/
structure SessionInfo where
  sessionId : String
  createdAt : Nat
  lastActivity : Nat
  status : String
  messageCount : Nat
  isActive : Bool
  deriving DecidableEq, Repr

/-- The `activeSessions` JS `Map`, as an insertion-ordered association
list with unique keys maintained by `setSession`. -/
abbrev Sessions := List (String × SessionInfo)

/-- `this.activeSessions.get(sessionId)`. -/
def lookupSession (m : Sessions) (sessionId : String) : Option SessionInfo :=
  alookup m sessionId

/-- `this.activeSessions.set(sessionId, info)`. -/
def setSession (m : Sessions) (sessionId : String) (info : SessionInfo) : Sessions :=
  aset m sessionId info

/-- Lower-case hex digit for `d < 16` (`Buffer.toString("hex")`). -/
def hexChar (d : Nat) : Char :=
  if d < 10 then Char.ofNat (48 + d) else Char.ofNat (87 + d)

/-- Two-digit hex rendering of one byte. -/
def byteHex (b : Fin 256) : List Char := [hexChar (b.val / 16), hexChar (b.val % 16)]

/-- `crypto.randomBytes(n).toString("hex")`. -/
def bytesToHex (bs : List (Fin 256)) : List Char :=
  bs.foldr (fun b acc => byteHex b ++ acc) []

/-- `sessionManager.js` `SessionManager.generateSessionId`:
builds `wa_` + `Date.now()` + `_` + 8 random bytes in hex, registers the
fresh record in `activeSessions`, and returns the id. -/
def generateSessionId (m : Sessions) (timestamp : Nat)
    (randomBytes : List (Fin 256)) : String × Sessions :=
  let sessionId := "wa_" ++ (⟨natDecDigits timestamp⟩ : String) ++ "_" ++
    (⟨bytesToHex randomBytes⟩ : String)
  let sessionInfo : SessionInfo :=
    { sessionId := sessionId
      createdAt := timestamp
      lastActivity := timestamp
      status := "created"
      messageCount := 0
      isActive := true }
  (sessionId, setSession m sessionId sessionInfo)

/-- ASCII decimal digit (`\d`). -/
def isDigitCh (c : Char) : Bool := 48 ≤ c.toNat && c.toNat ≤ 57

/-- Character class `[a-f0-9]`. -/
def isHexDigitCh (c : Char) : Bool :=
  (48 ≤ c.toNat && c.toNat ≤ 57) || (97 ≤ c.toNat && c.toNat ≤ 102)

/-- `sessionManager.js` `SessionManager.isValidSessionId`: the anchored
pattern `wa_` then `\d+` then `_` then exactly sixteen `[a-f0-9]`.  The
greedy digit run is exact here because a shorter run would be followed by
a digit, never by the required underscore. -/
def isValidSessionId (sessionId : String) : Bool :=
  match sessionId.toList with
  | c1 :: c2 :: c3 :: rest =>
    c1 = 'w' && c2 = 'a' && c3 = '_' &&
    (let ds := rest.takeWhile isDigitCh
     let rest2 := rest.dropWhile isDigitCh
     !ds.isEmpty &&
       (match rest2 with
        | c :: tail => c = '_' && tail.length == 16 && tail.all isHexDigitCh
        | _ => false))
  | _ => false

/-- `sessionManager.js` `SessionManager.updateSessionStatus`: overwrite
the status (unconditionally — there is no terminal-state guard) and
touch `lastActivity`; missing sessions are left alone. -/
def updateSessionStatus (m : Sessions) (sessionId status : String) (now : Nat) : Sessions :=
  match lookupSession m sessionId with
  | none => m
  | some info =>
    setSession m sessionId { info with status := status, lastActivity := now }

/-- `sessionManager.js` `SessionManager.removeSession`: mark the session
inactive and destroyed (instead of deleting it) and touch
`lastActivity`; missing sessions are left alone. -/
def removeSession (m : Sessions) (sessionId : String) (now : Nat) : Sessions :=
  match lookupSession m sessionId with
  | none => m
  | some info =>
    setSession m sessionId
      { info with isActive := false, status := "destroyed", lastActivity := now }

end SessionManager

namespace WhatsAppBot

open WA
open GeminiAI (Lang)

/-- One entry of the bot's per-contact chat history
(`addToHistory`'s `messageData`): `type` is "received" or "sent";
`who` models the `from`/`to` field (the contact name). -/
structure MessageData where
  type : String
  message : String
  timestamp : Nat
  who : String
  deriving DecidableEq, Repr

/-- The bot configuration fields the orchestration core reads
(`whatsapp-bot.js` `this.config`): history cap 10, rate threshold from
the environment with default 2. -/
structure Config where
  maxHistoryLength : Nat
  maxMessagesPerMinute : Nat
  deriving DecidableEq, Repr

/-- The defaults of `whatsapp-bot.js`. -/
def defaultConfig : Config := { maxHistoryLength := 10, maxMessagesPerMinute := 2 }

/-- The rate-limit window: `60 * 1000` ms. -/
def windowMs : Nat := 60 * 1000

/-- The mutable bot state the inbound pipeline touches. -/
structure BotState where
  isInitialized : Bool
  isReady : Bool
  messageCount : Nat
  chatHistory : List (String × List MessageData)
  rateLimiter : List (String × List Nat)
  deriving DecidableEq, Repr

/-- `whatsapp-bot.js` `WhatsAppBot.checkRateLimit`: ensure the contact
has a window, prune entries outside the trailing minute, store the
pruned window back, and report whether the remaining count is below the
threshold.  It records nothing. -/
def checkRateLimit (rl : List (String × List Nat)) (contactId : String)
    (now : Nat) (maxMessagesPerMinute : Nat) : Bool × List (String × List Nat) :=
  let rl := if ahas rl contactId then rl else aset rl contactId []
  let requests := alookupD rl contactId []
  let validRequests := requests.filter (fun time => now - time < windowMs)
  let rl := aset rl contactId validRequests
  (validRequests.length < maxMessagesPerMinute, rl)

/-- `whatsapp-bot.js` `WhatsAppBot.updateRateLimit`: ensure the contact
has a window and push `now` onto it. -/
def updateRateLimit (rl : List (String × List Nat)) (contactId : String)
    (now : Nat) : List (String × List Nat) :=
  let rl := if ahas rl contactId then rl else aset rl contactId []
  aset rl contactId (alookupD rl contactId [] ++ [now])

/-- `whatsapp-bot.js` `WhatsAppBot.addToHistory`: append the entry to
the contact's log, evicting the oldest entry beyond
`config.maxHistoryLength`. -/
def addToHistory (cfg : Config) (chatHistory : List (String × List MessageData))
    (contactId : String) (messageData : MessageData) :
    List (String × List MessageData) :=
  let chatHistory := if ahas chatHistory contactId then chatHistory
    else aset chatHistory contactId []
  aset chatHistory contactId
    (pushCap cfg.maxHistoryLength (alookupD chatHistory contactId []) messageData)

/-- `whatsapp-bot.js` `WhatsAppBot.getConversationContext`: the last six
entries of the contact's log (`slice(-6)`). -/
def getConversationContext (chatHistory : List (String × List MessageData))
    (contactId : String) : List MessageData :=
  let history := alookupD chatHistory contactId []
  history.drop (history.length - 6)

/-- Devanagari code-point test (`/[ऀ-ॿ]/`). -/
def isDevanagari (c : Char) : Bool := 0x900 ≤ c.toNat && c.toNat ≤ 0x97F

/-- The character class of `/^[a-zA-Z0-9\s.,!?'"()-]+$/`. -/
def isEnglishCh (c : Char) : Bool :=
  (97 ≤ c.toNat && c.toNat ≤ 122) || (65 ≤ c.toNat && c.toNat ≤ 90) ||
    (48 ≤ c.toNat && c.toNat ≤ 57) || isSpace c ||
    c = '.' || c = ',' || c = '!' || c = '?' || c.toNat = 39 ||
    c = '"' || c = '(' || c = ')' || c = '-'

/-- `whatsapp-bot.js` `WhatsAppBot.detectLanguage`: Devanagari text is
`hindi`, pure ASCII prose is `english`, anything else `hinglish`. -/
def detectLanguage (text : String) : Lang :=
  if text.toList.any isDevanagari then .hindi
  else if !text.toList.isEmpty && text.toList.all isEnglishCh then .english
  else .hinglish

/-- The alternatives of `cleanAIResponse`'s prefix regex
`^(You:|Me:|AI:|Bot:|Assistant:)`. -/
def roleLabels : List String := ["you:", "me:", "ai:", "bot:", "assistant:"]

/-- Quote characters of the class `["']`. -/
def isQuoteCh (c : Char) : Bool := c = '"' || c.toNat = 39

/-- `whatsapp-bot.js` `WhatsAppBot.cleanAIResponse`: strip a leading role
label, strip one leading and one trailing quote (`/^["']|["']$/g`), and
trim. -/
def cleanAIResponse (response : String) : String :=
  let cs := response.toList
  let cs :=
    match roleLabels.find? (fun a => a.toList.isPrefixOf (jsLower cs)) with
    | some a => cs.drop a.length
    | none => cs
  let cs := match cs with
    | c :: rest => if isQuoteCh c then rest else c :: rest
    | [] => []
  let cs := match cs.reverse with
    | c :: rest => if isQuoteCh c then rest.reverse else cs
    | [] => []
  ⟨jsTrim cs⟩

/-- `whatsapp-bot.js` `WhatsAppBot.buildAIPrompt`: the fixed persona and
rules, the register-specific instruction, the rendered history turns,
and the new message. -/
def buildAIPrompt (message : String) (history : List MessageData)
    (contactName : String) (language : Lang) : String :=
  let instruction :=
    match language with
    | .hindi => "हिंदी में जवाब दो। बिल्कुल natural और friendly tone में बात करो।"
    | .english => "Reply in English. Keep it natural and friendly like talking to a close friend."
    | .hinglish => "Hinglish mein reply karo. Natural aur friendly tone rakhna, jaise koi dost se baat kar raha ho."
  "तुम एक WhatsApp पर chat करने वाले smart और friendly AI assistant हो। " ++
    contactName ++ " नाम का व्यक्ति तुमसे बात कर रहा है।\n\n" ++ instruction ++
    "\n\nIMPORTANT RULES:\n- बहुत ज्यादा लंबा message मत भेजो (maximum 2-3 sentences)\n- Emojis का इस्तेमाल करो but बहुत ज्यादा नहीं\n- Natural conversation करो, robot जैसा मत लगो\n- अगर कोई personal या sensitive question पूछे तो politely avoid करो\n- हमेशा helpful और positive रहो\n\n" ++
    (if history.length > 0 then
      "पिछली conversation:\n" ++
        String.intercalate "\n"
          (history.map fun h =>
            (if h.type == "received" then contactName else "You") ++ ": " ++ h.message)
     else "") ++
    "\n\n" ++ contactName ++ " का नया message: \"" ++ message ++
    "\"\n\nअब तुम्हारा reply (सिर्फ message content, कोई extra text नहीं):"

/-- `whatsapp-bot.js` `WhatsAppBot.getAIResponse`: throws (returns
`none`) when the model is missing or the completion call fails;
otherwise the cleaned completion text.  The AI-service collaborator is
the parameter `ai`. -/
def getAIResponse (modelInit : Bool) (ai : String → Option String)
    (messageText : String) (conversationHistory : List MessageData)
    (contactName : String) : Option String :=
  if !modelInit then none
  else
    let detectedLanguage := detectLanguage messageText
    let prompt := buildAIPrompt messageText conversationHistory contactName detectedLanguage
    match ai prompt with
    | some t => some (cleanAIResponse t)
    | none => none

/-- The `fallbacks` pool of `WhatsAppBot.getFallbackResponse`. -/
def fallbacks : List String :=
  ["Sorry yaar, thoda issue ho gaya. Kya keh rahe the tum? 🤔",
   "Oops! Kuch technical problem hai. Dobara try karo 😅",
   "Hmm, samajh nahi aaya. Thoda aur detail mein batao? 🤷‍♂️",
   "Sorry bro, connection issue. Kya bol rahe the? 📱",
   "Arre yaar, kuch gadbad hai. Phir se message karo 🔄"]

/-- `whatsapp-bot.js` `WhatsAppBot.getFallbackResponse`: a pseudo-random
entry of the fixed pool (`pick` is the `Math.floor(Math.random() * len)`
draw, reduced `% length`). -/
def getFallbackResponse (pick : Nat) : String :=
  fallbacks.getD (pick % fallbacks.length) ""

/-- The external outcomes one inbound-message pipeline run can see:
whether `getContact`, the typing indicators, and the two `reply` sends
succeed, whether the model was initialized, the AI collaborator itself,
and the fallback-pool draw. -/
structure PipeParams where
  getContactOk : Bool
  typingOk : Bool
  replyOk : Bool
  fallbackOk : Bool
  modelInit : Bool
  ai : String → Option String
  fbPick : Nat

/-- An inbound transport message (the fields the handler reads;
`sender` models `message.from`). -/
structure Msg where
  sender : String
  fromMe : Bool
  body : String
  deriving DecidableEq, Repr

/-- `whatsapp-bot.js` `WhatsAppBot.generateAndSendResponse`.  Returns
the state afterwards and the list of texts actually delivered to the
transport.  The `catch` branch sends a canned fallback; an AI failure
surfaces as `getAIResponse = none` (JS `null`) or an empty cleaned
string, both falsy, and makes the method return with no send at all. -/
def generateAndSendResponse (st : BotState) (cfg : Config) (p : PipeParams)
    (msg : Msg) (contactId contactName : String) (now : Nat) :
    BotState × List String :=
  let fallbackResponse := getFallbackResponse p.fbPick
  let fbEntry : MessageData :=
    { type := "sent", message := fallbackResponse, timestamp := now,
      who := contactName }
  let catchPath : BotState × List String :=
    if p.fallbackOk then
      ({ st with chatHistory := addToHistory cfg st.chatHistory contactId fbEntry },
        [fallbackResponse])
    else (st, [])
  if !p.typingOk then catchPath
  else
    let history := getConversationContext st.chatHistory contactId
    match getAIResponse p.modelInit p.ai msg.body history contactName with
    | none => (st, [])
    | some aiResponse =>
      if aiResponse == "" then (st, [])
      else if p.replyOk then
        let sentEntry : MessageData :=
          { type := "sent", message := aiResponse, timestamp := now,
            who := contactName }
        let st := { st with chatHistory := addToHistory cfg st.chatHistory contactId sentEntry }
        let st := { st with rateLimiter := updateRateLimit st.rateLimiter contactId now }
        (st, [aiResponse])
      else catchPath

/-- `whatsapp-bot.js` `WhatsAppBot.handleIncomingMessage`: ignore
broadcast and self messages, resolve the contact, count the message,
gate on the rate limit, record the inbound turn, and run the response
pipeline.  Returns the state afterwards and the texts sent. -/
def handleIncomingMessage (st : BotState) (cfg : Config) (p : PipeParams)
    (msg : Msg) (contactName : String) (now : Nat) : BotState × List String :=
  if msg.sender == "status@broadcast" then (st, [])
  else if msg.fromMe then (st, [])
  else if !p.getContactOk then (st, [])
  else
    let contactId := msg.sender
    let st := { st with messageCount := st.messageCount + 1 }
    let res := checkRateLimit st.rateLimiter contactId now cfg.maxMessagesPerMinute
    let st := { st with rateLimiter := res.2 }
    if !res.1 then (st, [])
    else
      let recvEntry : MessageData :=
        { type := "received", message := msg.body, timestamp := now,
          who := contactName }
      let st := { st with chatHistory := addToHistory cfg st.chatHistory contactId recvEntry }
      generateAndSendResponse st cfg p msg contactId contactName now

/-- The record returned by `WhatsAppBot.getStatus`. -/
structure Status where
  connected : Bool
  initialized : Bool
  messageCount : Nat
  activeChats : Nat
  rateLimitedContacts : Nat
  deriving DecidableEq, Repr

/-- `whatsapp-bot.js` `WhatsAppBot.getStatus`. -/
def getStatus (st : BotState) : Status :=
  { connected := st.isReady
    initialized := st.isInitialized
    messageCount := st.messageCount
    activeChats := st.chatHistory.length
    rateLimitedContacts := st.rateLimiter.length }

end WhatsAppBot

namespace WhatsAppManager

open WA
open GeminiAI (HistEntry GenRand)
open WhatsAppBot (Msg)

/-- `whatsapp.js` `this.messageStats`. -/
structure MessageStats where
  received : Nat
  sent : Nat
  errors : Nat
  deriving DecidableEq, Repr

/-- The per-session manager state the inbound pipeline touches,
including the embedded `GeminiAI` instance's cache. -/
structure ManagerState where
  isReady : Bool
  status : String
  messageStats : MessageStats
  chatHistory : List (String × List HistEntry)
  geminiCache : GeminiAI.Cache
  deriving Repr

/-- `whatsapp.js` `WhatsAppManager.updateChatHistory`: append the turn
to the contact's log, keeping only the last ten entries. -/
def updateChatHistory (chatHistory : List (String × List HistEntry))
    (contactId message : String) (isBot : Bool) (now : Nat) :
    List (String × List HistEntry) :=
  let chatHistory := if ahas chatHistory contactId then chatHistory
    else aset chatHistory contactId []
  aset chatHistory contactId
    (pushCap 10 (alookupD chatHistory contactId [])
      { message := message, isBot := isBot, timestamp := now })

/-- `whatsapp.js` `WhatsAppManager.getChatHistory`. -/
def getChatHistory (chatHistory : List (String × List HistEntry))
    (contactId : String) : List HistEntry :=
  alookupD chatHistory contactId []

/-- The `fallbackMessages` pool of `WhatsAppManager.getFallbackMessage`. -/
def fallbackMessages : List String :=
  ["Sorry yaar, thoda issue ho gaya. Tum bolo kya chahiye?",
   "Arre yar, kuch technical problem aa gaya. Main thodi der mein reply karunga!",
   "Bhai, abhi thoda busy hun. Baad mein baat karte hain!",
   "Hmm, samajh nahi aaya. Phir se bologe?",
   "Thoda internet slow hai, baad mein reply karunga bro!"]

/-- `whatsapp.js` `WhatsAppManager.getFallbackMessage`: a pseudo-random
entry of the fixed pool. -/
def getFallbackMessage (pick : Nat) : String :=
  fallbackMessages.getD (pick % fallbackMessages.length) ""

/-- The external outcomes one manager pipeline run can see. -/
structure MgrParams where
  getContactOk : Bool
  ai : String → Option String
  rand : GenRand
  fbPick : Nat
  sendOk : Bool
  fbSendOk : Bool

/-- `whatsapp.js` `WhatsAppManager.handleIncomingMessage`: ignore self
and broadcast messages; count and log the inbound turn; ask the
embedded `GeminiAI` for a reply (its own catch substitutes the canned
fallback, so the reply is a plain string); simulate typing; send; log
the outbound turn.  Any exception falls to the catch block, which
counts an error and tries to send `getFallbackMessage` (swallowing a
failure of that send too).  Returns the state afterwards and the texts
delivered to the transport. -/
def handleIncomingMessage (st : ManagerState) (p : MgrParams) (msg : Msg)
    (contactName : String) (now : Nat) : ManagerState × List String :=
  if msg.fromMe || msg.sender == "status@broadcast" then (st, [])
  else
    let st := { st with messageStats :=
      { st.messageStats with received := st.messageStats.received + 1 } }
    let catchPath : ManagerState → ManagerState × List String := fun st =>
      let st := { st with messageStats :=
        { st.messageStats with errors := st.messageStats.errors + 1 } }
      let fallbackMessage := getFallbackMessage p.fbPick
      if st.isReady && p.fbSendOk then (st, [fallbackMessage]) else (st, [])
    if !p.getContactOk then catchPath st
    else
      let h1 := updateChatHistory st.chatHistory msg.sender msg.body false now
      let st := { st with chatHistory := h1 }
      let g := GeminiAI.generateResponse st.geminiCache now msg.body
        contactName (getChatHistory st.chatHistory msg.sender) p.ai p.rand
      let st := { st with geminiCache := g.cache }
      let aiResponse := g.reply
      if aiResponse != "" then
        if st.isReady && p.sendOk then
          let h2 := updateChatHistory st.chatHistory msg.sender aiResponse true now
          let st := { st with chatHistory := h2 }
          (st, [aiResponse])
        else catchPath st
      else (st, [])

end WhatsAppManager

namespace WA

theorem alookup_aset_self {α : Type} (m : List (String × α)) (k : String) (v : α) :
    alookup (aset m k v) k = some v := by
  induction m with
  | nil => simp [aset, alookup]
  | cons e rest ih =>
    by_cases he : (e.1 == k) = true
    · simp [aset, alookup, he]
    · have he' : (e.1 == k) = false := Bool.eq_false_iff.mpr he
      simp [aset, alookup, he', ih]

theorem alookup_aset_ne {α : Type} (m : List (String × α)) (k k' : String) (v : α)
    (h : k' ≠ k) : alookup (aset m k v) k' = alookup m k' := by
  have hkk : (k == k') = false := beq_eq_false_iff_ne.mpr (fun e => h e.symm)
  induction m with
  | nil => simp [aset, alookup, hkk]
  | cons e rest ih =>
    by_cases he : (e.1 == k) = true
    · have he1 : e.1 = k := eq_of_beq he
      simp [aset, alookup, he, hkk, he1]
    · have he' : (e.1 == k) = false := Bool.eq_false_iff.mpr he
      by_cases hek : (e.1 == k') = true
      · simp [aset, alookup, he', hek]
      · have hek' : (e.1 == k') = false := Bool.eq_false_iff.mpr hek
        simp [aset, alookup, he', hek', ih]

theorem alookup_eq_none {α : Type} (m : List (String × α)) (k : String)
    (h : ahas m k = false) : alookup m k = none := by
  induction m with
  | nil => rfl
  | cons e rest ih =>
    simp only [ahas, Bool.or_eq_false_iff] at h
    simp [alookup, h.1, ih h.2]

theorem foldl_pushCap {α : Type} (maxLen : Nat) (es : List α) (h0 : List α)
    (h : h0.length ≤ maxLen) :
    es.foldl (pushCap maxLen) h0 = (h0 ++ es).drop (h0.length + es.length - maxLen) := by
  induction es generalizing h0 with
  | nil =>
    simp [Nat.sub_eq_zero_of_le h]
  | cons e es ih =>
    rw [List.foldl_cons]
    by_cases hlt : h0.length + 1 ≤ maxLen
    · have hstep : pushCap maxLen h0 e = h0 ++ [e] := by
        unfold pushCap
        rw [if_neg (by simp; omega)]
      rw [hstep, ih (h0 ++ [e]) (by simp; omega)]
      rw [List.append_assoc, List.singleton_append]
      congr 1
      simp
      omega
    · have hlen : h0.length = maxLen := by omega
      have hstep : pushCap maxLen h0 e = (h0 ++ [e]).tail := by
        unfold pushCap
        rw [if_pos (by simp; omega)]
      rw [hstep]
      cases h0 with
      | nil =>
        have hL : maxLen = 0 := by simpa using hlen.symm
        subst hL
        simp only [List.nil_append, List.tail_cons]
        rw [ih [] (by simp)]
        simp [List.drop_length]
      | cons x t =>
        have htl : ((x :: t) ++ [e]).tail = t ++ [e] := by simp
        have hlen2 : t.length + 1 = maxLen := by simpa using hlen
        rw [htl, ih (t ++ [e]) (by simp; omega)]
        have hidx1 : (t ++ [e]).length + es.length - maxLen = es.length := by
          simp; omega
        have hidx2 : (x :: t).length + (e :: es).length - maxLen = es.length + 1 := by
          simp; omega
        rw [hidx1, hidx2, List.cons_append, List.drop_succ_cons,
          List.append_assoc, List.singleton_append]

end WA

namespace GeminiAI

open WA

theorem cacheGet_cacheSet_self (c : Cache) (k v : String) (t now : Nat) :
    cacheGet (cacheSet c k v t) k now = if now < t + cacheTTL then some v else none := by
  simp [cacheGet, cacheSet, List.find?_cons]

end GeminiAI

namespace WhatsAppBot

open WA

theorem alookup_addToHistory_self (cfg : Config)
    (h : List (String × List MessageData)) (cid : String) (e : MessageData) :
    alookup (addToHistory cfg h cid e) cid
      = some (pushCap cfg.maxHistoryLength (alookupD h cid []) e) := by
  unfold addToHistory
  by_cases hh : ahas h cid
  · simp only [hh, if_true]
    exact alookup_aset_self ..
  · simp only [hh, Bool.false_eq_true, if_false]
    rw [alookup_aset_self]
    unfold alookupD
    rw [alookup_aset_self, alookup_eq_none h cid (Bool.eq_false_iff.mpr hh)]
    rfl

theorem alookup_addToHistory_ne (cfg : Config)
    (h : List (String × List MessageData)) (cid k : String) (e : MessageData)
    (hk : k ≠ cid) :
    alookup (addToHistory cfg h cid e) k = alookup h k := by
  unfold addToHistory
  by_cases hh : ahas h cid
  · simp only [hh, if_true]
    exact alookup_aset_ne _ _ _ _ hk
  · simp only [hh, Bool.false_eq_true, if_false]
    rw [alookup_aset_ne _ _ _ _ hk, alookup_aset_ne _ _ _ _ hk]

theorem checkRateLimit_spec (rl : List (String × List Nat)) (cid : String)
    (now R : Nat) :
    (checkRateLimit rl cid now R).1
        = decide (((alookupD rl cid []).filter
            (fun time => now - time < windowMs)).length < R) ∧
    alookup (checkRateLimit rl cid now R).2 cid
        = some ((alookupD rl cid []).filter (fun time => now - time < windowMs)) ∧
    ∀ k, k ≠ cid → alookup (checkRateLimit rl cid now R).2 k = alookup rl k := by
  unfold checkRateLimit
  by_cases hh : ahas rl cid
  · simp only [hh, if_true]
    exact ⟨by trivial, alookup_aset_self .., fun k hk => alookup_aset_ne _ _ _ _ hk⟩
  · simp only [hh, Bool.false_eq_true, if_false]
    have hnone : alookup rl cid = none := alookup_eq_none rl cid (Bool.eq_false_iff.mpr hh)
    have hd : alookupD (aset rl cid []) cid ([] : List Nat) = [] := by
      unfold alookupD
      rw [alookup_aset_self]
      rfl
    have hd0 : alookupD rl cid ([] : List Nat) = [] := by
      unfold alookupD
      rw [hnone]
      rfl
    refine ⟨by rw [hd, hd0], ?_, ?_⟩
    · rw [hd, hd0]
      exact alookup_aset_self ..
    · intro k hk
      rw [alookup_aset_ne _ _ _ _ hk, alookup_aset_ne _ _ _ _ hk]

theorem updateRateLimit_spec (rl : List (String × List Nat)) (cid : String)
    (now : Nat) :
    alookup (updateRateLimit rl cid now) cid = some (alookupD rl cid [] ++ [now]) ∧
    ∀ k, k ≠ cid → alookup (updateRateLimit rl cid now) k = alookup rl k := by
  unfold updateRateLimit
  by_cases hh : ahas rl cid
  · simp only [hh, if_true]
    exact ⟨alookup_aset_self .., fun k hk => alookup_aset_ne _ _ _ _ hk⟩
  · simp only [hh, Bool.false_eq_true, if_false]
    have hnone : alookup rl cid = none := alookup_eq_none rl cid (Bool.eq_false_iff.mpr hh)
    have hd : alookupD (aset rl cid []) cid ([] : List Nat) = [] := by
      unfold alookupD
      rw [alookup_aset_self]
      rfl
    have hd0 : alookupD rl cid ([] : List Nat) = [] := by
      unfold alookupD
      rw [hnone]
      rfl
    refine ⟨?_, ?_⟩
    · rw [hd, hd0]
      exact alookup_aset_self ..
    · intro k hk
      rw [alookup_aset_ne _ _ _ _ hk, alookup_aset_ne _ _ _ _ hk]

end WhatsAppBot

namespace WhatsAppManager

open WA
open GeminiAI (HistEntry)

theorem alookup_updateChatHistory_self
    (h : List (String × List HistEntry)) (cid msgText : String) (isBot : Bool)
    (now : Nat) :
    alookup (updateChatHistory h cid msgText isBot now)
      cid = some (pushCap 10 (alookupD h cid [])
        { message := msgText, isBot := isBot, timestamp := now }) := by
  unfold updateChatHistory
  by_cases hh : ahas h cid
  · simp only [hh, if_true]
    exact alookup_aset_self ..
  · simp only [hh, Bool.false_eq_true, if_false]
    rw [alookup_aset_self]
    unfold alookupD
    rw [alookup_aset_self, alookup_eq_none h cid (Bool.eq_false_iff.mpr hh)]
    rfl

end WhatsAppManager

namespace WA

theorem pushCap_length_le {α : Type} (maxLen : Nat) (h : List α) (e : α)
    (hl : h.length ≤ maxLen) : (pushCap maxLen h e).length ≤ maxLen := by
  simp only [pushCap]
  split
  · simp
    omega
  · simp at *
    omega

theorem getD_mod_mem (l : List String) (i : Nat) (h : l ≠ []) :
    l.getD (i % l.length) "" ∈ l := by
  have hpos : 0 < l.length := List.length_pos.mpr h
  have hlt : i % l.length < l.length := Nat.mod_lt _ hpos
  rw [List.getD_eq_getElem l "" hlt]
  exact List.getElem_mem hlt

end WA

namespace WhatsAppBot

open WA

theorem foldl_addToHistory_lookup (cfg : Config) (msgs : List MessageData)
    (h0 : List (String × List MessageData)) (cid : String) :
    alookupD (msgs.foldl (fun h m => addToHistory cfg h cid m) h0) cid []
      = msgs.foldl (pushCap cfg.maxHistoryLength) (alookupD h0 cid []) := by
  induction msgs generalizing h0 with
  | nil => rfl
  | cons m ms ih =>
    rw [List.foldl_cons, List.foldl_cons, ih]
    congr 1
    unfold alookupD
    rw [alookup_addToHistory_self]
    rfl

theorem generateAndSendResponse_frame (st : BotState) (cfg : Config)
    (p : PipeParams) (msg : Msg) (cid cname : String) (now : Nat) :
    (generateAndSendResponse st cfg p msg cid cname now).1.messageCount
        = st.messageCount ∧
    (generateAndSendResponse st cfg p msg cid cname now).1.isReady = st.isReady ∧
    (generateAndSendResponse st cfg p msg cid cname now).1.isInitialized
        = st.isInitialized := by
  unfold generateAndSendResponse
  dsimp only
  refine ⟨?_, ?_, ?_⟩ <;> (repeat' split) <;> rfl

end WhatsAppBot

namespace WhatsAppManager

open WA
open GeminiAI (HistEntry)

theorem foldl_updateChatHistory_lookup (es : List HistEntry)
    (h0 : List (String × List HistEntry)) (cid : String) :
    alookupD (es.foldl
      (fun h e => updateChatHistory h cid e.message e.isBot e.timestamp) h0) cid []
      = es.foldl (pushCap 10) (alookupD h0 cid []) := by
  induction es generalizing h0 with
  | nil => rfl
  | cons e es ih =>
    rw [List.foldl_cons, List.foldl_cons, ih]
    congr 1
    unfold alookupD
    rw [alookup_updateChatHistory_self]
    rfl

end WhatsAppManager

namespace SessionManager

open WA

theorem digitChar_isDigit : ∀ d, d < 10 → isDigitCh (digitChar d) = true := by decide

theorem isDigitCh_underscore : isDigitCh '_' = false := by decide

theorem natDecDigitsGo_spec :
    ∀ (fuel n : Nat), n < fuel →
      natDecDigitsGo fuel n ≠ [] ∧ ∀ c ∈ natDecDigitsGo fuel n, isDigitCh c = true := by
  intro fuel
  induction fuel with
  | zero => intro n h; omega
  | succ fuel ih =>
    intro n h
    by_cases h10 : n < 10
    · refine ⟨by simp [natDecDigitsGo, h10], ?_⟩
      intro c hc
      simp [natDecDigitsGo, h10] at hc
      subst hc
      exact digitChar_isDigit n h10
    · have hdiv : n / 10 < fuel := by
        have := Nat.div_lt_self (show 0 < n by omega) (show 1 < 10 by omega)
        omega
      obtain ⟨hne, hall⟩ := ih (n / 10) hdiv
      refine ⟨by simp [natDecDigitsGo, h10], ?_⟩
      intro c hc
      simp only [natDecDigitsGo, h10, if_false] at hc
      rcases List.mem_append.mp hc with hc | hc
      · exact hall c hc
      · simp at hc
        subst hc
        exact digitChar_isDigit _ (Nat.mod_lt _ (by omega))

theorem natDecDigits_spec (n : Nat) :
    natDecDigits n ≠ [] ∧ ∀ c ∈ natDecDigits n, isDigitCh c = true :=
  natDecDigitsGo_spec (n + 1) n (Nat.lt_succ_self n)

theorem takeWhile_append_all {p : Char → Bool} (xs : List Char)
    (hxs : ∀ c ∈ xs, p c = true) (y : Char) (hy : p y = false) (ys : List Char) :
    (xs ++ y :: ys).takeWhile p = xs ∧ (xs ++ y :: ys).dropWhile p = y :: ys := by
  induction xs with
  | nil => simp [List.takeWhile_cons, List.dropWhile_cons, hy]
  | cons x xs ih =>
    have hx : p x = true := hxs x (List.mem_cons_self x xs)
    have ihh := ih (fun c hc => hxs c (List.mem_cons_of_mem x hc))
    simp only [List.cons_append, List.takeWhile_cons, List.dropWhile_cons, hx, if_true]
    exact ⟨by rw [ihh.1], by rw [ihh.2]⟩

theorem hexChar_isHex : ∀ d, d < 16 → isHexDigitCh (hexChar d) = true := by decide

theorem byteHex_all (b : Fin 256) : ∀ c ∈ byteHex b, isHexDigitCh c = true := by
  intro c hc
  have hdiv : b.val / 16 < 16 := Nat.div_lt_of_lt_mul (by omega)
  have hmod : b.val % 16 < 16 := Nat.mod_lt _ (by omega)
  simp only [byteHex, List.mem_cons, List.not_mem_nil, or_false] at hc
  rcases hc with hc | hc <;> subst hc
  · exact hexChar_isHex _ hdiv
  · exact hexChar_isHex _ hmod

theorem bytesToHex_length (bs : List (Fin 256)) :
    (bytesToHex bs).length = 2 * bs.length := by
  induction bs with
  | nil => rfl
  | cons b bs ih =>
    simp only [bytesToHex, List.foldr_cons] at ih ⊢
    rw [List.length_append, ih]
    simp [byteHex]
    omega

theorem bytesToHex_all (bs : List (Fin 256)) :
    ∀ c ∈ bytesToHex bs, isHexDigitCh c = true := by
  induction bs with
  | nil => intro c hc; simp [bytesToHex] at hc
  | cons b bs ih =>
    intro c hc
    simp only [bytesToHex, List.foldr_cons, List.mem_append] at hc
    rcases hc with hc | hc
    · exact byteHex_all b c hc
    · exact ih c hc

end SessionManager

/-- C5: for every contact, after `n > 10` appends the stored history
(both the bot's `addToHistory` with the default config and the manager's
`updateChatHistory`) holds exactly the 10 most recently appended entries
in arrival order, and one append never pushes a bounded history past 10
entries. -/
theorem c5_history_capped :
    (∀ (msgs : List WhatsAppBot.MessageData) (cid : String),
      msgs.length > 10 →
        WA.alookupD
          (msgs.foldl
            (fun h m => WhatsAppBot.addToHistory WhatsAppBot.defaultConfig h cid m) [])
          cid [] = msgs.drop (msgs.length - 10) ∧
        (WA.alookupD
          (msgs.foldl
            (fun h m => WhatsAppBot.addToHistory WhatsAppBot.defaultConfig h cid m) [])
          cid []).length = 10) ∧
    (∀ (h : List (String × List WhatsAppBot.MessageData)) (cid : String)
        (e : WhatsAppBot.MessageData),
      (WA.alookupD h cid []).length ≤ 10 →
        (WA.alookupD (WhatsAppBot.addToHistory WhatsAppBot.defaultConfig h cid e)
          cid []).length ≤ 10) ∧
    (∀ (es : List GeminiAI.HistEntry) (cid : String),
      es.length > 10 →
        WA.alookupD
          (es.foldl
            (fun h e =>
              WhatsAppManager.updateChatHistory h cid e.message e.isBot e.timestamp) [])
          cid [] = es.drop (es.length - 10)) := by
  refine ⟨?_, ?_, ?_⟩
  · intro msgs cid hlen
    have h1 := WhatsAppBot.foldl_addToHistory_lookup WhatsAppBot.defaultConfig msgs [] cid
    rw [show WA.alookupD ([] : List (String × List WhatsAppBot.MessageData)) cid [] = []
      from rfl] at h1
    rw [h1, WA.foldl_pushCap _ msgs [] (by simp)]
    refine ⟨by simp; rfl, ?_⟩
    simp only [List.nil_append, List.length_nil, Nat.zero_add, List.length_drop]
    show msgs.length - (msgs.length - WhatsAppBot.defaultConfig.maxHistoryLength) = 10
    simp only [WhatsAppBot.defaultConfig]
    omega
  · intro h cid e hle
    unfold WA.alookupD
    rw [WhatsAppBot.alookup_addToHistory_self]
    simp only [Option.getD_some]
    exact WA.pushCap_length_le _ _ _ hle
  · intro es cid hlen
    have h1 := WhatsAppManager.foldl_updateChatHistory_lookup es [] cid
    rw [show WA.alookupD ([] : List (String × List GeminiAI.HistEntry)) cid [] = []
      from rfl] at h1
    rw [h1, WA.foldl_pushCap 10 es [] (by simp)]
    simp

theorem c5_history_capped_witness :
    ((List.range 11).map (fun i =>
      ({ type := "received", message := "hi", timestamp := i, who := "c" }
        : WhatsAppBot.MessageData))).length > 10 ∧
    WA.alookupD
      (((List.range 11).map (fun i =>
        ({ type := "received", message := "hi", timestamp := i, who := "c" }
          : WhatsAppBot.MessageData))).foldl
        (fun h m => WhatsAppBot.addToHistory WhatsAppBot.defaultConfig h "c" m) [])
      "c" []
      = ((List.range 11).map (fun i =>
        ({ type := "received", message := "hi", timestamp := i, who := "c" }
          : WhatsAppBot.MessageData))).drop
          (((List.range 11).map (fun i =>
            ({ type := "received", message := "hi", timestamp := i, who := "c" }
              : WhatsAppBot.MessageData))).length - 10) :=
  ⟨by decide,
    (c5_history_capped.1
      ((List.range 11).map (fun i =>
        ({ type := "received", message := "hi", timestamp := i, who := "c" }
          : WhatsAppBot.MessageData)))
      "c" (by decide)).1⟩

/-- C6: the fallback selector classifies every input into exactly one of
the four categories by the source's ordered substring rules and always
answers with a member of that category's fixed pool (so it is total);
"hello there" lands in the greeting pool, "thanks a lot" in the
gratitude pool, and "random statement" in the default pool. -/
theorem c6_fallback_classification :
    (∀ (text : String) (pick : Nat),
      GeminiAI.getFallbackResponse text pick
        ∈ GeminiAI.fallbackPool (GeminiAI.fallbackType text)) ∧
    GeminiAI.fallbackType "hello there" = GeminiAI.FallbackType.greeting ∧
    GeminiAI.fallbackType "thanks a lot" = GeminiAI.FallbackType.thanks ∧
    GeminiAI.fallbackType "random statement" = GeminiAI.FallbackType.dflt := by
  refine ⟨?_, by decide, by decide, by decide⟩
  intro text pick
  unfold GeminiAI.getFallbackResponse
  apply WA.getD_mod_mem
  cases GeminiAI.fallbackType text <;> decide

/-- C7: the language classifier is a function of the input text alone
(identical input gives identical output), classifies "kaise ho yaar" as
the mixed register (hinglish) and "How are you today" as English. -/
theorem c7_classifier_pure_and_table :
    (∀ s t : String, s = t → GeminiAI.detectLanguage s = GeminiAI.detectLanguage t) ∧
    GeminiAI.detectLanguage "kaise ho yaar" = GeminiAI.Lang.hinglish ∧
    GeminiAI.detectLanguage "How are you today" = GeminiAI.Lang.english :=
  ⟨fun _ _ h => congrArg GeminiAI.detectLanguage h, by decide, by decide⟩

theorem c7_classifier_pure_and_table_witness :
    GeminiAI.detectLanguage "kaise ho yaar" = GeminiAI.detectLanguage "kaise ho yaar" :=
  c7_classifier_pure_and_table.1 "kaise ho yaar" "kaise ho yaar" rfl

/-- C8: every identifier `generateSessionId` builds — `wa_`, the
timestamp in decimal, `_`, and sixteen hex characters from eight random
bytes — passes the stand-alone `isValidSessionId` pattern
(`wa_` `\d+` `_` `[a-f0-9]` sixteen times), with no registry lookup. -/
theorem c8_generated_id_valid (m : SessionManager.Sessions) (timestamp : Nat)
    (bytes : List (Fin 256)) (h : bytes.length = 8) :
    SessionManager.isValidSessionId
      (SessionManager.generateSessionId m timestamp bytes).1 = true := by
  have hid : (SessionManager.generateSessionId m timestamp bytes).1
      = String.mk ('w' :: 'a' :: '_' ::
          (WA.natDecDigits timestamp ++ '_' :: SessionManager.bytesToHex bytes)) := by
    apply String.ext
    show ("wa_" ++ (⟨WA.natDecDigits timestamp⟩ : String) ++ "_" ++
      (⟨SessionManager.bytesToHex bytes⟩ : String)).data = _
    simp [String.data_append]
  rw [hid]
  obtain ⟨hne, hdig⟩ := SessionManager.natDecDigits_spec timestamp
  obtain ⟨htake, hdrop⟩ := SessionManager.takeWhile_append_all
    (WA.natDecDigits timestamp) hdig '_' SessionManager.isDigitCh_underscore
    (SessionManager.bytesToHex bytes)
  unfold SessionManager.isValidSessionId
  dsimp only [String.toList]
  rw [htake, hdrop]
  simp [hne, SessionManager.bytesToHex_length, h, List.all_eq_true]
  exact SessionManager.bytesToHex_all bytes

theorem c8_generated_id_valid_witness :
    (List.replicate 8 (0 : Fin 256)).length = 8 ∧
    SessionManager.isValidSessionId
      (SessionManager.generateSessionId [] 1712345678901
        (List.replicate 8 (0 : Fin 256))).1 = true :=
  ⟨by decide,
    c8_generated_id_valid [] 1712345678901 (List.replicate 8 0) (by decide)⟩

/-- C9: a self-originated (`fromMe`) or `status@broadcast` inbound
message is a non-event for both handlers: the state is returned
unchanged (no history entry, no counter, no rate-limit touch) and
nothing is sent. -/
theorem c9_broadcast_and_self_ignored :
    (∀ (st : WhatsAppBot.BotState) (cfg : WhatsAppBot.Config)
        (p : WhatsAppBot.PipeParams) (msg : WhatsAppBot.Msg)
        (cname : String) (now : Nat),
      msg.fromMe = true ∨ msg.sender = "status@broadcast" →
      WhatsAppBot.handleIncomingMessage st cfg p msg cname now = (st, [])) ∧
    (∀ (st : WhatsAppManager.ManagerState) (p : WhatsAppManager.MgrParams)
        (msg : WhatsAppBot.Msg) (cname : String) (now : Nat),
      msg.fromMe = true ∨ msg.sender = "status@broadcast" →
      WhatsAppManager.handleIncomingMessage st p msg cname now = (st, [])) := by
  constructor
  · intro st cfg p msg cname now h
    unfold WhatsAppBot.handleIncomingMessage
    rcases h with h | h
    · by_cases hb : (msg.sender == "status@broadcast") = true
      · simp [hb]
      · simp [Bool.eq_false_iff.mpr hb, h]
    · simp [h]
  · intro st p msg cname now h
    unfold WhatsAppManager.handleIncomingMessage
    rcases h with h | h
    · simp [h]
    · simp [h]

theorem c9_broadcast_and_self_ignored_witness :
    WhatsAppBot.handleIncomingMessage ⟨false, false, 0, [], []⟩
      WhatsAppBot.defaultConfig
      ⟨true, true, true, true, true, fun _ => none, 0⟩
      ⟨"status@broadcast", false, "x"⟩ "n" 0
      = (⟨false, false, 0, [], []⟩, []) ∧
    WhatsAppManager.handleIncomingMessage
      ⟨false, "initializing", ⟨0, 0, 0⟩, [], []⟩
      ⟨true, fun _ => none, ⟨false, 0, false, [], 0⟩, 0, true, true⟩
      ⟨"c", true, "x"⟩ "n" 0
      = (⟨false, "initializing", ⟨0, 0, 0⟩, [], []⟩, []) :=
  ⟨c9_broadcast_and_self_ignored.1 _ _ _ _ _ _ (Or.inr rfl),
   c9_broadcast_and_self_ignored.2 _ _ _ _ _ (Or.inl rfl)⟩

/-- C10 (implicit): a non-broadcast, non-self message increments the
session-wide `messageCount` (visible through `getStatus`) before the
rate-limit check, so a message the limiter then rejects still bumps the
counter even though it adds no history entry and sends no reply. -/
theorem c10_message_counted_before_rate_check :
    ∀ (st : WhatsAppBot.BotState) (cfg : WhatsAppBot.Config)
      (p : WhatsAppBot.PipeParams) (msg : WhatsAppBot.Msg)
      (cname : String) (now : Nat),
      msg.fromMe = false → msg.sender ≠ "status@broadcast" →
      p.getContactOk = true →
      (WhatsAppBot.getStatus
          (WhatsAppBot.handleIncomingMessage st cfg p msg cname now).1).messageCount
        = (WhatsAppBot.getStatus st).messageCount + 1 ∧
      (cfg.maxMessagesPerMinute ≤
          ((WA.alookupD st.rateLimiter msg.sender []).filter
            (fun t => now - t < WhatsAppBot.windowMs)).length →
        (WhatsAppBot.handleIncomingMessage st cfg p msg cname now).1.chatHistory
            = st.chatHistory ∧
        (WhatsAppBot.handleIncomingMessage st cfg p msg cname now).2 = []) := by
  intro st cfg p msg cname now hf hb hc
  have hbeq : (msg.sender == "status@broadcast") = false := beq_eq_false_iff_ne.mpr hb
  have hd := (WhatsAppBot.checkRateLimit_spec st.rateLimiter msg.sender now
    cfg.maxMessagesPerMinute).1
  constructor
  · unfold WhatsAppBot.handleIncomingMessage
    simp only [hbeq, Bool.false_eq_true, if_false, hf, hc, Bool.not_true]
    by_cases hr : (WhatsAppBot.checkRateLimit st.rateLimiter msg.sender now
        cfg.maxMessagesPerMinute).1 = true
    · simp only [hr, Bool.not_true, Bool.false_eq_true, if_false, WhatsAppBot.getStatus]
      rw [(WhatsAppBot.generateAndSendResponse_frame _ cfg p msg _ cname now).1]
    · have hr' := Bool.eq_false_iff.mpr hr
      simp only [hr', Bool.not_false, if_true]
      rfl
  · intro hge
    have hr : (WhatsAppBot.checkRateLimit st.rateLimiter msg.sender now
        cfg.maxMessagesPerMinute).1 = false := by
      rw [hd]
      simp only [decide_eq_false_iff_not, not_lt]
      exact hge
    unfold WhatsAppBot.handleIncomingMessage
    simp only [hbeq, Bool.false_eq_true, if_false, hf, hc, Bool.not_true]
    simp only [hr, Bool.not_false, if_true]
    exact ⟨by trivial, by trivial⟩

theorem c10_message_counted_before_rate_check_witness :
    (WhatsAppBot.getStatus
        (WhatsAppBot.handleIncomingMessage ⟨true, true, 3, [], [("c", [990, 995])]⟩
          WhatsAppBot.defaultConfig
          ⟨true, true, true, true, true, fun _ => some "great", 0⟩
          ⟨"c", false, "hi"⟩ "n" 1000).1).messageCount
      = (WhatsAppBot.getStatus ⟨true, true, 3, [], [("c", [990, 995])]⟩).messageCount + 1 ∧
    (WhatsAppBot.handleIncomingMessage ⟨true, true, 3, [], [("c", [990, 995])]⟩
        WhatsAppBot.defaultConfig
        ⟨true, true, true, true, true, fun _ => some "great", 0⟩
        ⟨"c", false, "hi"⟩ "n" 1000).1.chatHistory = [] ∧
    (WhatsAppBot.handleIncomingMessage ⟨true, true, 3, [], [("c", [990, 995])]⟩
        WhatsAppBot.defaultConfig
        ⟨true, true, true, true, true, fun _ => some "great", 0⟩
        ⟨"c", false, "hi"⟩ "n" 1000).2 = [] :=
  ⟨(c10_message_counted_before_rate_check ⟨true, true, 3, [], [("c", [990, 995])]⟩
      WhatsAppBot.defaultConfig ⟨true, true, true, true, true, fun _ => some "great", 0⟩
      ⟨"c", false, "hi"⟩ "n" 1000 rfl (by decide) rfl).1,
   ((c10_message_counted_before_rate_check ⟨true, true, 3, [], [("c", [990, 995])]⟩
      WhatsAppBot.defaultConfig ⟨true, true, true, true, true, fun _ => some "great", 0⟩
      ⟨"c", false, "hi"⟩ "n" 1000 rfl (by decide) rfl).2 (by decide)).1,
   ((c10_message_counted_before_rate_check ⟨true, true, 3, [], [("c", [990, 995])]⟩
      WhatsAppBot.defaultConfig ⟨true, true, true, true, true, fun _ => some "great", 0⟩
      ⟨"c", false, "hi"⟩ "n" 1000 rfl (by decide) rfl).2 (by decide)).2⟩

set_option maxRecDepth 20000 in
/-- C1 counterexample: the second, cache-served call does skip the AI
collaborator, but its reply can differ from the first call's reply —
the cached value is routed through `addPersonalTouch`, which with the
10% draw prefixes a personal address ("yaar, great" versus "great"). -/
theorem c1_cached_reply_differs :
    (GeminiAI.generateResponse
        (GeminiAI.generateResponse [] 0 "hello" "Bob" [] (fun _ => some "great")
          ⟨false, 0, false, [], 0⟩).cache
        10 "hello" "Bob" [] (fun _ => some "great") ⟨true, 0, false, [], 0⟩).aiCalled
      = false ∧
    (GeminiAI.generateResponse
        (GeminiAI.generateResponse [] 0 "hello" "Bob" [] (fun _ => some "great")
          ⟨false, 0, false, [], 0⟩).cache
        10 "hello" "Bob" [] (fun _ => some "great") ⟨true, 0, false, [], 0⟩).reply
      ≠ (GeminiAI.generateResponse [] 0 "hello" "Bob" [] (fun _ => some "great")
          ⟨false, 0, false, [], 0⟩).reply := by decide

/-- C1 amended: for identical input within the TTL, after a first call
that was a live, successful completion with a non-empty result, the
second call is served from the cache without invoking the AI-service
collaborator; its reply is the first call's reply passed through
`addPersonalTouch` — equal to the first reply whenever the 10%
personal-touch draw does not fire. -/
theorem c1_cache_hit_skips_ai :
    ∀ (cache : GeminiAI.Cache) (now1 now2 : Nat) (userMessage contactName : String)
      (hist1 hist2 : List GeminiAI.HistEntry) (ai : String → Option String)
      (r1 r2 : GeminiAI.GenRand) (t : String),
      (GeminiAI.cacheGet cache (GeminiAI.cacheKeyOf userMessage) now1).getD "" = "" →
      ai (GeminiAI.promptFor userMessage contactName hist1) = some t →
      GeminiAI.addHumanVariations (GeminiAI.cleanResponse t)
        (GeminiAI.detectLanguage userMessage) r1.applyVar r1.varPicks ≠ "" →
      now2 < now1 + GeminiAI.cacheTTL →
      (GeminiAI.generateResponse
          (GeminiAI.generateResponse cache now1 userMessage contactName hist1 ai r1).cache
          now2 userMessage contactName hist2 ai r2).aiCalled = false ∧
      (GeminiAI.generateResponse
          (GeminiAI.generateResponse cache now1 userMessage contactName hist1 ai r1).cache
          now2 userMessage contactName hist2 ai r2).reply
        = GeminiAI.addPersonalTouch
            (GeminiAI.generateResponse cache now1 userMessage contactName hist1 ai r1).reply
            contactName r2.touch r2.touchPick ∧
      (r2.touch = false →
        (GeminiAI.generateResponse
            (GeminiAI.generateResponse cache now1 userMessage contactName hist1 ai r1).cache
            now2 userMessage contactName hist2 ai r2).reply
          = (GeminiAI.generateResponse cache now1 userMessage contactName hist1 ai r1).reply) := by
  intro cache now1 now2 userMessage contactName hist1 hist2 ai r1 r2 t hmiss hai hne httl
  have hr1 : GeminiAI.generateResponse cache now1 userMessage contactName hist1 ai r1
      = { reply := GeminiAI.addHumanVariations (GeminiAI.cleanResponse t)
            (GeminiAI.detectLanguage userMessage) r1.applyVar r1.varPicks
          cache := GeminiAI.cacheSet cache (GeminiAI.cacheKeyOf userMessage)
            (GeminiAI.addHumanVariations (GeminiAI.cleanResponse t)
              (GeminiAI.detectLanguage userMessage) r1.applyVar r1.varPicks) now1
          aiCalled := true } := by
    unfold GeminiAI.generateResponse
    dsimp only
    rw [hmiss, hai]
    simp
  rw [hr1]
  have hget : GeminiAI.cacheGet
      (GeminiAI.cacheSet cache (GeminiAI.cacheKeyOf userMessage)
        (GeminiAI.addHumanVariations (GeminiAI.cleanResponse t)
          (GeminiAI.detectLanguage userMessage) r1.applyVar r1.varPicks) now1)
      (GeminiAI.cacheKeyOf userMessage) now2
      = some (GeminiAI.addHumanVariations (GeminiAI.cleanResponse t)
          (GeminiAI.detectLanguage userMessage) r1.applyVar r1.varPicks) := by
    rw [GeminiAI.cacheGet_cacheSet_self]
    simp [httl]
  have hbne : (GeminiAI.addHumanVariations (GeminiAI.cleanResponse t)
      (GeminiAI.detectLanguage userMessage) r1.applyVar r1.varPicks != "") = true :=
    bne_iff_ne.mpr hne
  have hr2 : GeminiAI.generateResponse
      (GeminiAI.cacheSet cache (GeminiAI.cacheKeyOf userMessage)
        (GeminiAI.addHumanVariations (GeminiAI.cleanResponse t)
          (GeminiAI.detectLanguage userMessage) r1.applyVar r1.varPicks) now1)
      now2 userMessage contactName hist2 ai r2
      = { reply := GeminiAI.addPersonalTouch
            (GeminiAI.addHumanVariations (GeminiAI.cleanResponse t)
              (GeminiAI.detectLanguage userMessage) r1.applyVar r1.varPicks)
            contactName r2.touch r2.touchPick
          cache := GeminiAI.cacheSet cache (GeminiAI.cacheKeyOf userMessage)
            (GeminiAI.addHumanVariations (GeminiAI.cleanResponse t)
              (GeminiAI.detectLanguage userMessage) r1.applyVar r1.varPicks) now1
          aiCalled := false } := by
    unfold GeminiAI.generateResponse
    dsimp only
    rw [hget]
    simp only [Option.getD_some, hbne, if_true]
  rw [hr2]
  refine ⟨rfl, rfl, ?_⟩
  intro htouch
  unfold GeminiAI.addPersonalTouch
  simp [htouch]

theorem c1_cache_hit_skips_ai_witness :
    (GeminiAI.cacheGet [] (GeminiAI.cacheKeyOf "hello") 0).getD "" = "" ∧
    (GeminiAI.generateResponse
        (GeminiAI.generateResponse [] 0 "hello" "Bob" [] (fun _ => some "great")
          ⟨false, 0, false, [], 0⟩).cache
        10 "hello" "Bob" [] (fun _ => some "great") ⟨false, 0, false, [], 0⟩).aiCalled
      = false :=
  ⟨by decide,
    (c1_cache_hit_skips_ai [] 0 10 "hello" "Bob" [] [] (fun _ => some "great")
      ⟨false, 0, false, [], 0⟩ ⟨false, 0, false, [], 0⟩ "great"
      (by decide) rfl (by decide) (by decide)).1⟩

/-- C2 counterexample: the admission check can return true while
recording nothing — for a fresh contact it admits (0 < 2) and stores the
pruned, still-empty window, so `now = 1000` is nowhere in the state. -/
theorem c2_admission_does_not_record :
    (WhatsAppBot.checkRateLimit [] "contact" 1000 2).1 = true ∧
    WA.alookup (WhatsAppBot.checkRateLimit [] "contact" 1000 2).2 "contact"
      = some [] := by decide

/-- C2 amended: `checkRateLimit` prunes timestamps older than
`now - windowMs`, stores the pruned window back (its only mutation, on
both outcomes), returns true exactly when the remaining count is below
the threshold, and never records `now`; other contacts are untouched.
Recording is the separate `updateRateLimit`, which appends `now`. -/
theorem c2_prune_check_record_separated :
    ∀ (rl : List (String × List Nat)) (cid : String) (now R : Nat),
      (WhatsAppBot.checkRateLimit rl cid now R).1
          = decide (((WA.alookupD rl cid []).filter
              (fun time => now - time < WhatsAppBot.windowMs)).length < R) ∧
      WA.alookup (WhatsAppBot.checkRateLimit rl cid now R).2 cid
          = some ((WA.alookupD rl cid []).filter
              (fun time => now - time < WhatsAppBot.windowMs)) ∧
      (∀ k, k ≠ cid →
        WA.alookup (WhatsAppBot.checkRateLimit rl cid now R).2 k = WA.alookup rl k) ∧
      WA.alookup (WhatsAppBot.updateRateLimit rl cid now) cid
          = some (WA.alookupD rl cid [] ++ [now]) :=
  fun rl cid now R =>
    ⟨(WhatsAppBot.checkRateLimit_spec rl cid now R).1,
     (WhatsAppBot.checkRateLimit_spec rl cid now R).2.1,
     (WhatsAppBot.checkRateLimit_spec rl cid now R).2.2,
     (WhatsAppBot.updateRateLimit_spec rl cid now).1⟩

theorem c2_prune_check_record_separated_witness :
    WA.alookup (WhatsAppBot.checkRateLimit [("c", [5]), ("d", [7])] "c" 10 2).2 "d"
      = WA.alookup [("c", [5]), ("d", [7])] "d" ∧
    WA.alookup (WhatsAppBot.updateRateLimit [("c", [5])] "c" 10) "c"
      = some (WA.alookupD [("c", [5])] "c" [] ++ [10]) :=
  ⟨(c2_prune_check_record_separated [("c", [5]), ("d", [7])] "c" 10 2).2.2.1 "d"
      (by decide),
   (c2_prune_check_record_separated [("c", [5])] "c" 10 2).2.2.2⟩

/-- C3 counterexample: `updateSessionStatus` has no terminal-state
guard — a session whose status is "destroyed" is moved straight to
"ready" by a status update, so DESTROYED is not absorbing. -/
theorem c3_destroyed_not_absorbing :
    (WA.alookup (SessionManager.updateSessionStatus
        [("wa_1_x", ⟨"wa_1_x", 0, 0, "destroyed", 0, false⟩)]
        "wa_1_x" "ready" 5) "wa_1_x").map SessionManager.SessionInfo.status
      = some "ready" := by decide

/-- C3 amended: repeated `removeSession` is idempotent on every
observable field except `lastActivity` (which is refreshed on every
call), keeping `status = "destroyed"` and `isActive = false`; but
`updateSessionStatus` overwrites the status unconditionally, so a
destroyed session does not stay destroyed under status updates. -/
theorem c3_destroy_idempotent_except_timestamp :
    ∀ (m : SessionManager.Sessions) (sid : String) (i : SessionManager.SessionInfo)
      (t1 t2 : Nat) (st : String),
      WA.alookup m sid = some i →
      WA.alookup (SessionManager.removeSession m sid t1) sid
        = some { i with isActive := false, status := "destroyed", lastActivity := t1 } ∧
      WA.alookup (SessionManager.removeSession
          (SessionManager.removeSession m sid t1) sid t2) sid
        = some { i with isActive := false, status := "destroyed", lastActivity := t2 } ∧
      WA.alookup (SessionManager.updateSessionStatus m sid st t1) sid
        = some { i with status := st, lastActivity := t1 } := by
  intro m sid i t1 t2 st h
  have step : ∀ (mm : SessionManager.Sessions) (j : SessionManager.SessionInfo) (tt : Nat),
      WA.alookup mm sid = some j →
      WA.alookup (SessionManager.removeSession mm sid tt) sid
        = some { j with isActive := false, status := "destroyed", lastActivity := tt } := by
    intro mm j tt hj
    unfold SessionManager.removeSession SessionManager.lookupSession
    rw [hj]
    unfold SessionManager.setSession
    rw [WA.alookup_aset_self]
  have h1 := step m i t1 h
  refine ⟨h1, ?_, ?_⟩
  · exact step (SessionManager.removeSession m sid t1)
      { i with isActive := false, status := "destroyed", lastActivity := t1 } t2 h1
  · unfold SessionManager.updateSessionStatus SessionManager.lookupSession
    rw [h]
    unfold SessionManager.setSession
    rw [WA.alookup_aset_self]

theorem c3_destroy_idempotent_except_timestamp_witness :
    WA.alookup (SessionManager.removeSession
        (SessionManager.removeSession
          [("s", ⟨"s", 0, 0, "ready", 4, true⟩)] "s" 1) "s" 2) "s"
      = some (⟨"s", 0, 2, "destroyed", 4, false⟩ : SessionManager.SessionInfo) :=
  (c3_destroy_idempotent_except_timestamp
    [("s", ⟨"s", 0, 0, "ready", 4, true⟩)] "s" ⟨"s", 0, 0, "ready", 4, true⟩
    1 2 "ready" (by decide)).2.1

/-- C4 counterexample: when the AI-completion step fails
(`getAIResponse` yields `null`), the pipeline returns with *no* send at
all — no fallback reply is dispatched, leaving the contact without any
reply attempt. -/
theorem c4_ai_failure_sends_nothing :
    WhatsAppBot.generateAndSendResponse ⟨true, true, 0, [], []⟩
      WhatsAppBot.defaultConfig
      ⟨true, true, true, true, true, fun _ => none, 0⟩
      ⟨"c", false, "hi"⟩ "c" "Bob" 0
      = (⟨true, true, 0, [], []⟩, []) := by decide

/-- C4 amended: a completion failure (AI error or empty cleaned result)
is swallowed by the pipeline — `generateAndSendResponse` returns with the
state unchanged and nothing sent, never surfacing the failure; the
fallback-pool reply is dispatched only when the typing/send phase itself
raises. -/
theorem c4_completion_failure_swallowed :
    ∀ (st : WhatsAppBot.BotState) (cfg : WhatsAppBot.Config)
      (p : WhatsAppBot.PipeParams) (msg : WhatsAppBot.Msg)
      (cid cname : String) (now : Nat),
      (p.typingOk = true →
        (WhatsAppBot.getAIResponse p.modelInit p.ai msg.body
            (WhatsAppBot.getConversationContext st.chatHistory cid) cname = none ∨
          WhatsAppBot.getAIResponse p.modelInit p.ai msg.body
            (WhatsAppBot.getConversationContext st.chatHistory cid) cname = some "") →
        WhatsAppBot.generateAndSendResponse st cfg p msg cid cname now = (st, [])) ∧
      (p.typingOk = false → p.fallbackOk = true →
        (WhatsAppBot.generateAndSendResponse st cfg p msg cid cname now).2
          = [WhatsAppBot.getFallbackResponse p.fbPick]) := by
  intro st cfg p msg cid cname now
  constructor
  · intro hty hai
    unfold WhatsAppBot.generateAndSendResponse
    simp only [hty, Bool.not_true, Bool.false_eq_true, if_false]
    rcases hai with hai | hai <;> simp [hai]
  · intro hty hfb
    unfold WhatsAppBot.generateAndSendResponse
    simp [hty, hfb]

theorem c4_completion_failure_swallowed_witness :
    WhatsAppBot.generateAndSendResponse ⟨true, true, 0, [], []⟩
      WhatsAppBot.defaultConfig
      ⟨true, true, true, true, true, fun _ => none, 0⟩
      ⟨"c", false, "hi"⟩ "c" "Bob" 7
      = (⟨true, true, 0, [], []⟩, []) ∧
    (WhatsAppBot.generateAndSendResponse ⟨true, true, 0, [], []⟩
      WhatsAppBot.defaultConfig
      ⟨true, false, true, true, true, fun _ => some "x", 3⟩
      ⟨"c", false, "hi"⟩ "c" "Bob" 0).2
      = [WhatsAppBot.getFallbackResponse 3] :=
  ⟨(c4_completion_failure_swallowed _ _ _ _ _ _ 7).1 rfl (Or.inl (by decide)),
   (c4_completion_failure_swallowed _ _ _ _ _ _ 0).2 rfl rfl⟩

